import Mathlib

/-!
Shallow embedding of the content-extraction and resilience pipeline of the
puppeteer-browser-mcp server: the retry-wrapped markdown reader and the
structured reader of src/index.ts, and the DuckDuckGo search scraper of
src/duckduckgo-search.service.ts, together with the duckduckgo_search branch
of the tool-call handler.

External collaborators (the browser, Readability, Turndown) are modelled as
inputs: each operation takes a scenario describing what those collaborators
yield on each step, and the embedding computes the result the TypeScript code
produces from those yields.  Browser-session lifecycle is made observable as
an event trace (launch, newPage, goto, ..., close).
-/

/-- Model of a JavaScript error value, carrying its message string. -/
structure Err where
  msg : String
deriving Repr, DecidableEq

/-- Decidable equality for `Except`, needed to evaluate witnesses. -/
def exceptDecEq {ε α : Type} [DecidableEq ε] [DecidableEq α] :
    (a b : Except ε α) → Decidable (a = b)
  | .ok a, .ok b =>
    if h : a = b then isTrue (congrArg Except.ok h)
    else isFalse (fun hc => h (Except.ok.inj hc))
  | .error a, .error b =>
    if h : a = b then isTrue (congrArg Except.error h)
    else isFalse (fun hc => h (Except.error.inj hc))
  | .ok _, .error _ => isFalse (fun hc => Except.noConfusion hc)
  | .error _, .ok _ => isFalse (fun hc => Except.noConfusion hc)

instance {ε α : Type} [DecidableEq ε] [DecidableEq α] : DecidableEq (Except ε α) :=
  exceptDecEq

/-- JavaScript `String.prototype.includes`: `pat` occurs contiguously in `s`. -/
def containsSub (s pat : String) : Bool := decide (pat.data <:+: s.data)

/-- JavaScript `String.prototype.startsWith`: `pre` is a prefix of `s`. -/
def strStartsWith (s pre : String) : Bool := decide (pre.data <+: s.data)

/-- JavaScript `String.prototype.trim`: strip whitespace from both ends. -/
def jsTrim (s : String) : String :=
  ⟨((s.data.dropWhile Char.isWhitespace).reverse.dropWhile Char.isWhitespace).reverse⟩

/-- JavaScript `a || b` for a possibly-absent string `a`: absent strings and
the empty string are falsy, so they yield `b`. -/
def jsOrString (a : Option String) (b : String) : String :=
  match a with
  | none => b
  | some s => if s = "" then b else s

/-- JavaScript `a || b` for possibly-null object references: null is falsy,
an object is always truthy. -/
def jsOrOpt {α : Type} (a b : Option α) : Option α :=
  match a with
  | some x => some x
  | none => b

/-- Transient-error classification used by `safeOperation`
(src/index.ts lines 85-87): the error message mentions a detached navigating
frame, a destroyed execution context, or a closed target. -/
def isTransientMessage (msg : String) : Bool :=
  containsSub msg "Navigating frame was detached" ||
  containsSub msg "Execution context was destroyed" ||
  containsSub msg "Target closed"

/-- Observable outcome of one `safeOperation` call: the returned value or the
raised error, the number of times the wrapped operation was invoked, and the
backoff waits (in milliseconds) performed between attempts, in order. -/
structure RunResult (T : Type) where
  result : Except Err T
  attempts : Nat
  waits : List Nat
deriving Repr, DecidableEq

/-- Retry loop of `safeOperation` (src/index.ts lines 80-97).  `i` is the
current value of the loop counter and `remaining` the number of loop
iterations still allowed (`maxRetries - i`), which makes the recursion
structural.  The wrapped operation is modelled as a function of the attempt
index because every attempt runs against a fresh page in a changed world.
The fallthrough `throw lastError` of line 97 is reachable only with
`maxRetries = 0`, where `lastError` is still `undefined`. -/
def safeOperationFrom {T : Type} (op : Nat → Except Err T) (maxRetries : Nat) :
    Nat → Nat → RunResult T
  | _, 0 => ⟨.error ⟨"undefined"⟩, 0, []⟩
  | i, remaining + 1 =>
    match op i with
    | .ok v => ⟨.ok v, 1, []⟩
    | .error e =>
      if isTransientMessage e.msg && decide (i < maxRetries - 1) then
        let rest := safeOperationFrom op maxRetries (i + 1) remaining
        ⟨rest.result, rest.attempts + 1, 1000 * (i + 1) :: rest.waits⟩
      else
        ⟨.error e, 1, []⟩

/-- The `safeOperation` helper of getPageMarkdown (src/index.ts lines 77-98):
run `op`, retrying with backoff `1000 * (i + 1)` ms after attempt `i` while
the caught error is classified transient and further attempts remain. -/
def safeOperation {T : Type} (op : Nat → Except Err T) (maxRetries : Nat) :
    RunResult T :=
  safeOperationFrom op maxRetries 0 maxRetries

/-- Output of Readability's parse over the page HTML (external library). -/
structure Article where
  title : String
  content : String
  excerpt : String
deriving Repr, DecidableEq

/-- World met by one attempt of the read-markdown navigate+extract unit:
what each browser or library step yields on this attempt.  `gotoError` is an
error rejected by `page.goto` itself, `response` the HTTP status of the
navigation response (none models a null response), `finalUrl` the value of
`page.url()` after navigation, `waitError` an error rejected by the
readiness wait or snapshot step, and `article` the Readability parse of the
snapshot (content `""` models both null and empty content, which are equally
falsy in the source's check). -/
structure PageAttempt where
  gotoError : Option Err
  response : Option Nat
  finalUrl : String
  waitError : Option Err
  article : Option Article
deriving Repr, DecidableEq

/-- The JSON payload built by a successful getPageMarkdown
(src/index.ts lines 141-146). -/
structure MarkdownResult where
  title : String
  description : String
  markdown : String
  url : String
deriving Repr, DecidableEq

/-- One attempt of the navigate+extract unit that getPageMarkdown passes to
`safeOperation` (src/index.ts lines 101-147): navigate, validate the
response, wait for readiness, snapshot, run Readability, convert with
Turndown (modelled by `td`). -/
def markdownAttempt (url : String) (td : String → String) (a : PageAttempt) :
    Except Err MarkdownResult :=
  match a.gotoError with
  | some e => .error e
  | none =>
    match a.response with
    | none => .error ⟨"No response received from the server"⟩
    | some status =>
      if 400 ≤ status then .error ⟨"HTTP error: " ++ Nat.repr status⟩
      else if strStartsWith a.finalUrl "chrome-error://" then
        .error ⟨"Browser error page loaded"⟩
      else
        match a.waitError with
        | some e => .error e
        | none =>
          match a.article with
          | none => .error ⟨"Could not extract article content"⟩
          | some article =>
            if article.content = "" then
              .error ⟨"Could not extract article content"⟩
            else
              .ok ⟨article.title, article.excerpt, td article.content, url⟩

/-- The retry-wrapped run of getPageMarkdown (src/index.ts line 101):
`safeOperation` around the navigate+extract unit, with its default of 3
attempts. -/
def getPageMarkdownRun (url : String) (td : String → String)
    (attempts : Nat → PageAttempt) : RunResult MarkdownResult :=
  safeOperation (fun i => markdownAttempt url td (attempts i)) 3

/-- Browser-session events, used to make resource lifecycle observable. -/
inductive Ev
  | launch
  | newPage
  | setUserAgent
  | goto
  | waitForSelector
  | waitForFunction
  | content
  | evaluate
  | close
deriving Repr, DecidableEq

/-- Browser interactions performed by one read-markdown attempt, in order,
following the branch structure of `markdownAttempt`: the attempt always opens
a page and navigates; it reaches the readiness wait only when the response
validates, and the snapshot only when the wait succeeds. -/
def markdownAttemptEvents (a : PageAttempt) : List Ev :=
  if a.gotoError.isSome then [.newPage, .goto]
  else if a.response.isNone then [.newPage, .goto]
  else if 400 ≤ a.response.getD 0 then [.newPage, .goto]
  else if strStartsWith a.finalUrl "chrome-error://" then [.newPage, .goto]
  else if a.waitError.isSome then [.newPage, .goto, .waitForFunction]
  else [.newPage, .goto, .waitForFunction, .content]

/-- Full browser-session trace of getPageMarkdown (src/index.ts lines 63-151):
the browser is launched once, the attempts actually performed by
`safeOperation` run inside the `try`, and the `finally` closes the browser on
every exit path. -/
def getPageMarkdownTrace (url : String) (td : String → String)
    (attempts : Nat → PageAttempt) : List Ev :=
  Ev.launch ::
    (((List.range (getPageMarkdownRun url td attempts).attempts).map
      (fun i => markdownAttemptEvents (attempts i))).flatten ++ [Ev.close])

/-- Anchor element of the structured reader's document: resolved absolute
`href` and nullable `textContent`. -/
structure AnchorEl where
  href : String
  textContent : Option String
deriving Repr, DecidableEq

/-- Image element of the structured reader's document: resolved absolute
`src` and `alt` (the DOM reflects a missing alt attribute as `""`). -/
structure ImgEl where
  src : String
  alt : String
deriving Repr, DecidableEq

/-- The loaded document as seen by getPageData's `page.evaluate` body:
title, body inner text, anchors and images in document order, and the
document element's `lang` attribute. -/
structure PageDocument where
  title : String
  bodyInnerText : String
  anchors : List AnchorEl
  images : List ImgEl
  lang : String
deriving Repr, DecidableEq

/-- Link entry of the structured snapshot: `{href, text}`. -/
structure LinkEntry where
  href : String
  text : String
deriving Repr, DecidableEq

/-- Image entry of the structured snapshot: `{src, alt}` with null alt. -/
structure ImageEntry where
  src : String
  alt : Option String
deriving Repr, DecidableEq

/-- The structured payload built by getPageData (src/index.ts lines 39-57),
without the wall-clock `metadata.scrapedAt` field. -/
structure StructuredSnapshot where
  url : String
  title : String
  text : String
  links : List LinkEntry
  images : List ImageEntry
  language : String
deriving Repr, DecidableEq

/-- Per-anchor mapping of getPageData: `{href: a.href,
text: a.textContent?.trim() || ""}` (src/index.ts lines 42-45). -/
def linkOfAnchor (a : AnchorEl) : LinkEntry :=
  ⟨a.href, jsOrString (a.textContent.map jsTrim) ""⟩

/-- Per-image mapping of getPageData: `{src: img.src, alt: img.alt || null}`
(src/index.ts lines 46-49). -/
def imageOfImg (im : ImgEl) : ImageEntry :=
  ⟨im.src, if im.alt = "" then none else some im.alt⟩

/-- The `page.evaluate` body of getPageData (src/index.ts lines 39-51):
sample the document, keeping the first `maxLinks` anchors and the first
`maxImages` images in document order. -/
def structuredEvaluate (doc : PageDocument) (maxLinks maxImages : Nat)
    (url : String) : StructuredSnapshot :=
  { url := url
    title := doc.title
    text := jsTrim doc.bodyInnerText
    links := (doc.anchors.take maxLinks).map linkOfAnchor
    images := (doc.images.take maxImages).map imageOfImg
    language := if doc.lang = "" then "unknown" else doc.lang }

/-- World met by one getPageData call: whether navigation rejects, and the
document obtained when it does not. -/
structure StructuredScenario where
  gotoError : Option Err
  doc : PageDocument
deriving Repr, DecidableEq

/-- getPageData (src/index.ts lines 30-61): launch, then
try newPage/goto/evaluate finally close.  A goto failure propagates after the
`finally` has closed the browser. -/
def getPageData (url : String) (s : StructuredScenario)
    (maxLinks maxImages : Nat) : Except Err StructuredSnapshot × List Ev :=
  match s.gotoError with
  | some e => (.error e, [.launch, .newPage, .goto, .close])
  | none =>
    (.ok (structuredEvaluate s.doc maxLinks maxImages url),
     [.launch, .newPage, .goto, .evaluate, .close])

/-- DOM element inside a search result container: nullable `textContent`,
and the resolved `href` for anchors. -/
structure DomEl where
  textContent : Option String
  href : String
deriving Repr, DecidableEq

/-- One search result container, with what each of the four sub-selectors
finds inside it (null when the selector matches nothing). -/
structure ResultEl where
  modernAnchor : Option DomEl
  legacyAnchor : Option DomEl
  modernSnippet : Option DomEl
  legacySnippet : Option DomEl
deriving Repr, DecidableEq

/-- The search results page: containers matched by the modern selector
`article[data-testid="result"]` and by the legacy selector `.result__body`,
each in page order. -/
structure SearchPage where
  modernItems : List ResultEl
  legacyItems : List ResultEl
deriving Repr, DecidableEq

/-- One normalized search result: `{title, url, description}`. -/
structure SearchResultItem where
  title : String
  url : String
  description : String
deriving Repr, DecidableEq

/-- Per-container extraction of the search scraper
(src/duckduckgo-search.service.ts lines 44-53): title anchor and snippet each
try the modern selector first, then the legacy one; title defaults to
"No title", url and description to the empty string. -/
def extractResult (el : ResultEl) : SearchResultItem :=
  let anchor := jsOrOpt el.modernAnchor el.legacyAnchor
  let snippet := jsOrOpt el.modernSnippet el.legacySnippet
  { title := jsOrString (anchor.bind (fun a => a.textContent.map jsTrim)) "No title"
    url := jsOrString (anchor.map DomEl.href) ""
    description := jsOrString (snippet.bind (fun sn => sn.textContent.map jsTrim)) "" }

/-- The `page.evaluate` body of DuckDuckGoSearchService.search
(src/duckduckgo-search.service.ts lines 35-54): take the modern containers,
fall back to the legacy containers only when the modern selector matched
nothing, then map the first `maxResults` containers in page order. -/
def searchEvaluate (page : SearchPage) (maxResults : Nat) :
    List SearchResultItem :=
  let items := page.modernItems
  let items := if items.length = 0 then page.legacyItems else items
  (items.take maxResults).map extractResult

/-- World met by one search call: whether navigation rejects, and the result
page obtained when it does not. -/
structure SearchScenario where
  gotoError : Option Err
  page : SearchPage
deriving Repr, DecidableEq

/-- DuckDuckGoSearchService.search (src/duckduckgo-search.service.ts
lines 12-60): launch, then try newPage/setUserAgent/goto/waitForSelector/
evaluate finally close.  A waitForSelector timeout is swallowed by its
`.catch`; a goto failure propagates after the `finally` has closed the
browser.  The query only shapes the search URL. -/
def searchRun (query : String) (maxResults : Nat) (s : SearchScenario) :
    Except Err (List SearchResultItem) × List Ev :=
  match s.gotoError with
  | some e => (.error e, [.launch, .newPage, .setUserAgent, .goto, .close])
  | none =>
    (.ok (searchEvaluate s.page maxResults),
     [.launch, .newPage, .setUserAgent, .goto, .waitForSelector, .evaluate,
      .close])

/-- The `maxResults` tool argument as JavaScript sees it: absent, NaN, or a
number.  Negative numbers never reach the claims and are left out. -/
inductive JsNum
  | undefined
  | nan
  | num (n : Nat)
deriving Repr, DecidableEq

/-- JavaScript falsiness of the argument: undefined, NaN and 0 are falsy. -/
def JsNum.isFalsy : JsNum → Bool
  | .undefined => true
  | .nan => true
  | .num n => decide (n = 0)

/-- JavaScript `maxResults || DDG_MAX_RESULTS` (src/index.ts line 236). -/
def JsNum.orDefault : JsNum → Nat → Nat
  | .num n, d => if n = 0 then d else n
  | .undefined, d => d
  | .nan, d => d

/-- What the duckduckgo_search tool handler hands back to the protocol
layer: a result list, or an error text flagged with isError. -/
inductive ToolOutcome
  | success (results : List SearchResultItem)
  | failure (message : String)
deriving Repr, DecidableEq

/-- Default of the DDG_MAX_RESULTS configuration value (src/index.ts
line 16): it is read from the environment once at startup and defaults
to 10.  The theorems quantify over the configured value. -/
def DDG_MAX_RESULTS_default : Nat := 10

/-- Bounds a number-typed tool parameter declares in its input schema. -/
structure NumberSchema where
  minimum : Nat
  maximum : Nat
  defaultValue : Nat
deriving Repr, DecidableEq

/-- The schema the duckduckgo_search tool declares for maxResults
(src/index.ts lines 184-190): minimum 1, maximum 50, default 10. -/
def duckduckgoSearchMaxResultsSchema : NumberSchema :=
  { minimum := 1, maximum := 50, defaultValue := 10 }

/-- Post-validation part of the duckduckgo_search handler (src/index.ts
lines 235-243): run the search with the effective maximum, rendering success
as the result list and a thrown error as an error text. -/
def searchToolDispatch (q : String) (effectiveMax : Nat) (s : SearchScenario) :
    ToolOutcome × List Ev :=
  match searchRun q effectiveMax s with
  | (.ok results, tr) => (.success results, tr)
  | (.error e, tr) => (.failure ("Error: " ++ e.msg), tr)

/-- The duckduckgo_search branch of the CallToolRequestSchema handler
(src/index.ts lines 224-244): reject a falsy query before any browser work,
otherwise search with `maxResults || DDG_MAX_RESULTS`.  The trace is the
browser-session trace, empty when the search service is never invoked. -/
def handleDuckduckgoSearch (query : Option String) (maxResults : JsNum)
    (ddgMax : Nat) (s : SearchScenario) : ToolOutcome × List Ev :=
  match query with
  | none => (.failure "Error: \x27query\x27 parameter is required", [])
  | some q =>
    if q = "" then (.failure "Error: \x27query\x27 parameter is required", [])
    else searchToolDispatch q (maxResults.orDefault ddgMax) s

/-- Unfolding of the safeOperation loop body for a positive iteration budget. -/
theorem safeOperationFrom_succ {T : Type} (op : Nat → Except Err T)
    (maxRetries i r : Nat) :
    safeOperationFrom op maxRetries i (r + 1) =
      match op i with
      | .ok v => ⟨.ok v, 1, []⟩
      | .error e =>
        if isTransientMessage e.msg && decide (i < maxRetries - 1) then
          let rest := safeOperationFrom op maxRetries (i + 1) r
          ⟨rest.result, rest.attempts + 1, 1000 * (i + 1) :: rest.waits⟩
        else
          ⟨.error e, 1, []⟩ := rfl

/-- Complete case analysis of a 3-attempt safeOperation run. -/
theorem safeOperation_three {T : Type} (op : Nat → Except Err T) :
    safeOperation op 3 =
      match op 0 with
      | .ok v => ⟨.ok v, 1, []⟩
      | .error e0 =>
        if isTransientMessage e0.msg = true then
          match op 1 with
          | .ok v => ⟨.ok v, 2, [1000]⟩
          | .error e1 =>
            if isTransientMessage e1.msg = true then
              match op 2 with
              | .ok v => ⟨.ok v, 3, [1000, 2000]⟩
              | .error e2 => ⟨.error e2, 3, [1000, 2000]⟩
            else ⟨.error e1, 2, [1000]⟩
        else ⟨.error e0, 1, []⟩ := by
  unfold safeOperation
  show safeOperationFrom op 3 0 (2 + 1) = _
  rw [safeOperationFrom_succ]
  cases h0 : op 0 with
  | ok v => rfl
  | error e0 =>
    simp only [show decide (0 < 3 - 1) = true from rfl, Bool.and_true]
    cases ht0 : isTransientMessage e0.msg with
    | false => simp
    | true =>
      simp only [if_pos rfl, if_true]
      show (let rest := safeOperationFrom op 3 1 (1 + 1);
        RunResult.mk rest.result (rest.attempts + 1) (1000 * (0 + 1) :: rest.waits)) = _
      rw [safeOperationFrom_succ]
      cases h1 : op 1 with
      | ok v => rfl
      | error e1 =>
        simp only [show decide (1 < 3 - 1) = true from rfl, Bool.and_true]
        cases ht1 : isTransientMessage e1.msg with
        | false => simp
        | true =>
          simp only [if_true]
          show (let rest1 := (let rest2 := safeOperationFrom op 3 2 (0 + 1);
              RunResult.mk rest2.result (rest2.attempts + 1)
                (1000 * (1 + 1) :: rest2.waits));
            RunResult.mk rest1.result (rest1.attempts + 1)
              (1000 * (0 + 1) :: rest1.waits)) = _
          rw [safeOperationFrom_succ]
          cases h2 : op 2 with
          | ok v => rfl
          | error e2 =>
            simp only [show decide (2 < 3 - 1) = false from rfl, Bool.and_false,
              if_false]
            rfl

/-- Attempt world in which page.goto rejects with a Target closed protocol
error, the transient renderer-teardown symptom. -/
def transientGotoAttempt : PageAttempt :=
  { gotoError := some ⟨"Protocol error (Page.navigate): Target closed."⟩
    response := none
    finalUrl := ""
    waitError := none
    article := none }

/-- Attempt world in which navigation, validation and extraction all
succeed. -/
def successAttempt : PageAttempt :=
  { gotoError := none
    response := some 200
    finalUrl := "https://example.com/"
    waitError := none
    article := some { title := "Example", content := "Hello world", excerpt := "Ex" } }

/-- World sequence whose first two attempts hit a transient error and whose
third succeeds. -/
def attemptsTransientTwice : Nat → PageAttempt := fun i =>
  if i < 2 then transientGotoAttempt else successAttempt

/-- World sequence in which every attempt hits a transient error. -/
def attemptsAllTransient : Nat → PageAttempt := fun _ => transientGotoAttempt

/-- C1: with the maximum of 3 attempts, when the navigate+extract unit throws
a transient (frame-detached / context-destroyed / target-closed) error on
attempts 1 and 2 and succeeds on attempt 3, read-markdown returns the third
attempt's result after invoking the unit 3 times, having waited 1000 ms
before attempt 2 and 2000 ms before attempt 3 (linearly increasing
backoff). -/
theorem readMarkdown_transient_then_success
    (url : String) (td : String → String) (attempts : Nat → PageAttempt)
    (e0 e1 : Err) (v : MarkdownResult)
    (h0 : markdownAttempt url td (attempts 0) = .error e0)
    (t0 : isTransientMessage e0.msg = true)
    (h1 : markdownAttempt url td (attempts 1) = .error e1)
    (t1 : isTransientMessage e1.msg = true)
    (h2 : markdownAttempt url td (attempts 2) = .ok v) :
    getPageMarkdownRun url td attempts = ⟨.ok v, 3, [1000, 2000]⟩ := by
  unfold getPageMarkdownRun
  rw [safeOperation_three]
  simp [h0, h1, h2, t0, t1]

/-- Witness for C1 at a concrete world sequence. -/
theorem readMarkdown_transient_then_success_witness :
    getPageMarkdownRun "https://example.com" id attemptsTransientTwice =
      ⟨.ok ⟨"Example", "Ex", "Hello world", "https://example.com"⟩, 3,
        [1000, 2000]⟩ :=
  readMarkdown_transient_then_success "https://example.com" id
    attemptsTransientTwice
    ⟨"Protocol error (Page.navigate): Target closed."⟩
    ⟨"Protocol error (Page.navigate): Target closed."⟩
    ⟨"Example", "Ex", "Hello world", "https://example.com"⟩
    rfl (by decide) rfl (by decide) rfl

/-- C2: with the maximum of 3 attempts, when every attempt of the
navigate+extract unit throws a transient error, read-markdown invokes the
unit exactly 3 times and then fails with the error of the third attempt; no
fourth invocation happens. -/
theorem readMarkdown_all_transient_fails
    (url : String) (td : String → String) (attempts : Nat → PageAttempt)
    (e0 e1 e2 : Err)
    (h0 : markdownAttempt url td (attempts 0) = .error e0)
    (t0 : isTransientMessage e0.msg = true)
    (h1 : markdownAttempt url td (attempts 1) = .error e1)
    (t1 : isTransientMessage e1.msg = true)
    (h2 : markdownAttempt url td (attempts 2) = .error e2)
    (t2 : isTransientMessage e2.msg = true) :
    getPageMarkdownRun url td attempts = ⟨.error e2, 3, [1000, 2000]⟩ := by
  unfold getPageMarkdownRun
  rw [safeOperation_three]
  simp [h0, h1, h2, t0, t1]

/-- Witness for C2 at a concrete world sequence. -/
theorem readMarkdown_all_transient_fails_witness :
    getPageMarkdownRun "https://example.com" id attemptsAllTransient =
      ⟨.error ⟨"Protocol error (Page.navigate): Target closed."⟩, 3,
        [1000, 2000]⟩ :=
  readMarkdown_all_transient_fails "https://example.com" id attemptsAllTransient
    ⟨"Protocol error (Page.navigate): Target closed."⟩
    ⟨"Protocol error (Page.navigate): Target closed."⟩
    ⟨"Protocol error (Page.navigate): Target closed."⟩
    rfl (by decide) rfl (by decide) rfl (by decide)

/-- Nat.digitChar yields a decimal digit character below 10. -/
theorem digitChar_isDigit (m : Nat) (h : m < 10) :
    (Nat.digitChar m).isDigit = true := by
  interval_cases m <;> decide

/-- Every character that Nat.toDigitsCore with base 10 appends is a decimal
digit. -/
theorem toDigitsCore_digits (fuel : Nat) :
    ∀ (n : Nat) (ds : List Char), (∀ c ∈ ds, c.isDigit = true) →
      ∀ c ∈ Nat.toDigitsCore 10 fuel n ds, c.isDigit = true := by
  induction fuel with
  | zero =>
    intro n ds h c hc
    exact h c hc
  | succ fuel ih =>
    intro n ds h c hc
    have hcons : ∀ x ∈ Nat.digitChar (n % 10) :: ds, x.isDigit = true := by
      intro x hx
      rcases List.mem_cons.mp hx with rfl | hx
      · exact digitChar_isDigit _ (Nat.mod_lt _ (by norm_num))
      · exact h x hx
    rw [Nat.toDigitsCore] at hc
    split at hc
    · exact hcons c hc
    · exact ih (n / 10) (Nat.digitChar (n % 10) :: ds) hcons c hc

/-- Every character of the decimal rendering of a natural number is a
digit. -/
theorem repr_isDigit (n : Nat) : ∀ c ∈ (Nat.repr n).data, c.isDigit = true := by
  intro c hc
  have he : (Nat.repr n).data = Nat.toDigitsCore 10 (n + 1) n [] := rfl
  rw [he] at hc
  exact toDigitsCore_digits (n + 1) n [] (by intro c hc; cases hc) c hc

/-- The HTTP-error message raised for any status is never classified
transient: each transient pattern contains the letter a, which occurs
neither in the fixed prefix nor in a decimal rendering. -/
theorem isTransientMessage_http (n : Nat) :
    isTransientMessage ("HTTP error: " ++ Nat.repr n) = false := by
  have ha : ('a' : Char) ∉ ("HTTP error: " ++ Nat.repr n).data := by
    rw [String.data_append]
    intro hmem
    rcases List.mem_append.mp hmem with h | h
    · revert h
      decide
    · exact absurd (repr_isDigit n 'a' h) (by decide)
  have h1 : containsSub ("HTTP error: " ++ Nat.repr n)
      "Navigating frame was detached" = false := by
    unfold containsSub
    simp only [decide_eq_false_iff_not]
    intro hinf
    exact ha (hinf.subset (by decide))
  have h2 : containsSub ("HTTP error: " ++ Nat.repr n)
      "Execution context was destroyed" = false := by
    unfold containsSub
    simp only [decide_eq_false_iff_not]
    intro hinf
    exact ha (hinf.subset (by decide))
  have h3 : containsSub ("HTTP error: " ++ Nat.repr n)
      "Target closed" = false := by
    unfold containsSub
    simp only [decide_eq_false_iff_not]
    intro hinf
    exact ha (hinf.subset (by decide))
  simp [isTransientMessage, h1, h2, h3]

/-- When the very first attempt fails with an error that is not classified
transient, the 3-attempt run stops there: one invocation, no backoff. -/
theorem getPageMarkdownRun_first_error
    (url : String) (td : String → String) (attempts : Nat → PageAttempt)
    (e : Err)
    (h : markdownAttempt url td (attempts 0) = .error e)
    (ht : isTransientMessage e.msg = false) :
    getPageMarkdownRun url td attempts = ⟨.error e, 1, []⟩ := by
  unfold getPageMarkdownRun
  rw [safeOperation_three]
  simp [h, ht]

/-- C3: a read-markdown navigation yielding no response object, an HTTP
status of 400 or more, or a final URL on the internal chrome-error scheme
fails immediately with a terminal error after exactly one invocation of the
navigate+extract unit: the raised message is not classified transient, so no
retry and no backoff happen. -/
theorem readMarkdown_terminal_navigation_no_retry
    (url : String) (td : String → String) (attempts : Nat → PageAttempt)
    (hg : (attempts 0).gotoError = none)
    (hterm : (attempts 0).response = none ∨
      (∃ s, (attempts 0).response = some s ∧ 400 ≤ s) ∨
      strStartsWith (attempts 0).finalUrl "chrome-error://" = true) :
    ∃ e, getPageMarkdownRun url td attempts = ⟨.error e, 1, []⟩ ∧
      isTransientMessage e.msg = false := by
  rcases hterm with hr | ⟨s, hr, hs⟩ | hu
  · exact ⟨⟨"No response received from the server"⟩,
      getPageMarkdownRun_first_error url td attempts _
        (by simp [markdownAttempt, hg, hr]) (by decide), by decide⟩
  · exact ⟨⟨"HTTP error: " ++ Nat.repr s⟩,
      getPageMarkdownRun_first_error url td attempts _
        (by simp [markdownAttempt, hg, hr, hs]) (isTransientMessage_http s),
      isTransientMessage_http s⟩
  · cases hr : (attempts 0).response with
    | none =>
      exact ⟨⟨"No response received from the server"⟩,
        getPageMarkdownRun_first_error url td attempts _
          (by simp [markdownAttempt, hg, hr]) (by decide), by decide⟩
    | some s =>
      by_cases hs : 400 ≤ s
      · exact ⟨⟨"HTTP error: " ++ Nat.repr s⟩,
          getPageMarkdownRun_first_error url td attempts _
            (by simp [markdownAttempt, hg, hr, hs]) (isTransientMessage_http s),
          isTransientMessage_http s⟩
      · exact ⟨⟨"Browser error page loaded"⟩,
          getPageMarkdownRun_first_error url td attempts _
            (by simp [markdownAttempt, hg, hr, hs, hu]) (by decide), by decide⟩

/-- Attempt world in which navigation succeeds but the server answers 404. -/
def notFoundAttempt : PageAttempt :=
  { gotoError := none
    response := some 404
    finalUrl := "https://example.com/missing"
    waitError := none
    article := none }

/-- Witness for C3 at a concrete 404 navigation. -/
theorem readMarkdown_terminal_navigation_no_retry_witness :
    ∃ e, getPageMarkdownRun "https://example.com/missing" id
        (fun _ => notFoundAttempt) = ⟨.error e, 1, []⟩ ∧
      isTransientMessage e.msg = false :=
  readMarkdown_terminal_navigation_no_retry "https://example.com/missing" id
    (fun _ => notFoundAttempt) rfl
    (Or.inr (Or.inl ⟨404, rfl, by norm_num⟩))

/-- C8: once navigation has validated (a response arrived with status below
400, the page is not an internal error page, and the readiness wait
succeeded), the readability/markdown transform fails with the extraction
error exactly when Readability yields no article or an article with empty
content; that extraction error is not classified transient, so the operation
surfaces it after a single attempt, without retry. -/
theorem readMarkdown_extraction_failure
    (url : String) (td : String → String) (a : PageAttempt) (s : Nat)
    (hg : a.gotoError = none) (hr : a.response = some s) (hs : s < 400)
    (hu : strStartsWith a.finalUrl "chrome-error://" = false)
    (hw : a.waitError = none) :
    (markdownAttempt url td a = .error ⟨"Could not extract article content"⟩ ↔
      (a.article = none ∨ ∃ art, a.article = some art ∧ art.content = "")) ∧
    isTransientMessage "Could not extract article content" = false ∧
    (∀ attempts : Nat → PageAttempt, attempts 0 = a →
      (a.article = none ∨ ∃ art, a.article = some art ∧ art.content = "") →
      getPageMarkdownRun url td attempts =
        ⟨.error ⟨"Could not extract article content"⟩, 1, []⟩) := by
  have hs400 : ¬ 400 ≤ s := by omega
  refine ⟨⟨?_, ?_⟩, by decide, ?_⟩
  · intro h
    simp [markdownAttempt, hg, hr, hs400, hu, hw] at h
    cases hart : a.article with
    | none => exact Or.inl rfl
    | some art =>
      rw [hart] at h
      by_cases hc : art.content = ""
      · exact Or.inr ⟨art, rfl, hc⟩
      · simp [hc] at h
  · intro h
    rcases h with hart | ⟨art, hart, hc⟩
    · simp [markdownAttempt, hg, hr, hs400, hu, hw, hart]
    · simp [markdownAttempt, hg, hr, hs400, hu, hw, hart, hc]
  · intro attempts ha hfail
    apply getPageMarkdownRun_first_error
    · rw [ha]
      rcases hfail with hart | ⟨art, hart, hc⟩
      · simp [markdownAttempt, hg, hr, hs400, hu, hw, hart]
      · simp [markdownAttempt, hg, hr, hs400, hu, hw, hart, hc]
    · decide

/-- Attempt world in which navigation validates but Readability finds no
article. -/
def noArticleAttempt : PageAttempt :=
  { gotoError := none
    response := some 200
    finalUrl := "https://example.com/"
    waitError := none
    article := none }

/-- Witness for C8 at a concrete no-article page. -/
theorem readMarkdown_extraction_failure_witness :
    getPageMarkdownRun "https://example.com/" id (fun _ => noArticleAttempt) =
      ⟨.error ⟨"Could not extract article content"⟩, 1, []⟩ :=
  (readMarkdown_extraction_failure "https://example.com/" id noArticleAttempt
    200 rfl rfl (by norm_num) (by decide) rfl).2.2
    (fun _ => noArticleAttempt) rfl (Or.inl rfl)

/-- A read-markdown attempt never launches or closes the browser itself:
those are owned by the enclosing try/finally. -/
theorem markdownAttemptEvents_no_session (a : PageAttempt) :
    Ev.close ∉ markdownAttemptEvents a ∧ Ev.launch ∉ markdownAttemptEvents a := by
  unfold markdownAttemptEvents
  split_ifs <;> exact ⟨by decide, by decide⟩

/-- No attempt in the retry loop contributes a launch or close event. -/
theorem markdownTrace_flatten_not_mem (attempts : Nat → PageAttempt) (n : Nat)
    (e : Ev) (he : e = Ev.close ∨ e = Ev.launch) :
    e ∉ ((List.range n).map
      (fun i => markdownAttemptEvents (attempts i))).flatten := by
  intro hmem
  rcases List.mem_flatten.mp hmem with ⟨l, hl, hel⟩
  rcases List.mem_map.mp hl with ⟨i, _, rfl⟩
  rcases he with rfl | rfl
  · exact (markdownAttemptEvents_no_session (attempts i)).1 hel
  · exact (markdownAttemptEvents_no_session (attempts i)).2 hel

/-- C4: every operation closes the browser session it acquired exactly once,
on every exit path — the structured read, the markdown read (across all its
retry attempts), and the search, whether the body returns normally or throws
a classified or unclassified error; each also launches exactly one session. -/
theorem browser_closed_exactly_once :
    (∀ (url : String) (s : StructuredScenario) (maxLinks maxImages : Nat),
      (getPageData url s maxLinks maxImages).2.count Ev.close = 1 ∧
      (getPageData url s maxLinks maxImages).2.count Ev.launch = 1) ∧
    (∀ (url : String) (td : String → String) (attempts : Nat → PageAttempt),
      (getPageMarkdownTrace url td attempts).count Ev.close = 1 ∧
      (getPageMarkdownTrace url td attempts).count Ev.launch = 1) ∧
    (∀ (q : String) (m : Nat) (s : SearchScenario),
      (searchRun q m s).2.count Ev.close = 1 ∧
      (searchRun q m s).2.count Ev.launch = 1) := by
  refine ⟨?_, ?_, ?_⟩
  · intro url s maxLinks maxImages
    cases hg : s.gotoError <;> simp only [getPageData, hg] <;>
      exact ⟨by decide, by decide⟩
  · intro url td attempts
    have hc : (((List.range (getPageMarkdownRun url td attempts).attempts).map
        (fun i => markdownAttemptEvents (attempts i))).flatten).count
          Ev.close = 0 :=
      List.count_eq_zero.mpr (markdownTrace_flatten_not_mem attempts _ _
        (Or.inl rfl))
    have hl : (((List.range (getPageMarkdownRun url td attempts).attempts).map
        (fun i => markdownAttemptEvents (attempts i))).flatten).count
          Ev.launch = 0 :=
      List.count_eq_zero.mpr (markdownTrace_flatten_not_mem attempts _ _
        (Or.inr rfl))
    unfold getPageMarkdownTrace
    constructor
    · simp [List.count_cons, List.count_append, hc]
    · simp [List.count_cons, List.count_append, hl]
  · intro q m s
    cases hg : s.gotoError <;> simp only [searchRun, hg] <;>
      exact ⟨by decide, by decide⟩

/-- C5: the legacy result-container selector is consulted only when the
modern selector matches nothing.  With at least one modern container, the
result list is exactly the per-container extraction of the first maxResults
modern containers and every returned item comes from a modern container;
with no modern container, it is exactly the extraction of the first
maxResults legacy containers, in page order.  The two families are never
merged. -/
theorem search_legacy_fallback_only (page : SearchPage) (maxResults : Nat) :
    (page.modernItems ≠ [] →
      searchEvaluate page maxResults =
        (page.modernItems.take maxResults).map extractResult ∧
      ∀ r ∈ searchEvaluate page maxResults,
        ∃ el ∈ page.modernItems, r = extractResult el) ∧
    (page.modernItems = [] →
      searchEvaluate page maxResults =
        (page.legacyItems.take maxResults).map extractResult) := by
  constructor
  · intro hne
    have hlen : page.modernItems.length ≠ 0 := by
      simpa [List.length_eq_zero] using hne
    have heq : searchEvaluate page maxResults =
        (page.modernItems.take maxResults).map extractResult := by
      unfold searchEvaluate
      simp [hlen]
    refine ⟨heq, ?_⟩
    intro r hr
    rw [heq] at hr
    rcases List.mem_map.mp hr with ⟨el, hel, rfl⟩
    exact ⟨el, List.mem_of_mem_take hel, rfl⟩
  · intro he
    unfold searchEvaluate
    simp [he]

/-- Result container exposing only the modern selector family. -/
def wModernEl : ResultEl :=
  { modernAnchor := some ⟨some "Modern title", "https://a.example/"⟩
    legacyAnchor := none
    modernSnippet := some ⟨some "Modern snippet", ""⟩
    legacySnippet := none }

/-- Result container exposing only the legacy selector family. -/
def wLegacyEl : ResultEl :=
  { modernAnchor := none
    legacyAnchor := some ⟨some "Legacy title", "https://b.example/"⟩
    modernSnippet := none
    legacySnippet := some ⟨some "Legacy snippet", ""⟩ }

/-- Search page where modern containers are present. -/
def wSearchPage : SearchPage :=
  { modernItems := [wModernEl, wModernEl], legacyItems := [wLegacyEl] }

/-- Witness for C5 at a concrete page with modern containers. -/
theorem search_legacy_fallback_only_witness :
    searchEvaluate wSearchPage 1 =
      (wSearchPage.modernItems.take 1).map extractResult :=
  ((search_legacy_fallback_only wSearchPage 1).1 (by decide)).1

/-- C6: the structured read returns the first maxLinks anchors of the
document in document order, exactly maxLinks of them when the document has
more, and symmetrically keeps only the first maxImages images; elements
beyond the caps are silently omitted. -/
theorem structured_read_caps
    (url : String) (s : StructuredScenario) (maxLinks maxImages : Nat)
    (hg : s.gotoError = none) :
    ∃ snap, (getPageData url s maxLinks maxImages).1 = .ok snap ∧
      snap.links = (s.doc.anchors.take maxLinks).map linkOfAnchor ∧
      (maxLinks < s.doc.anchors.length → snap.links.length = maxLinks) ∧
      (∀ j, j < maxLinks →
        snap.links[j]? = (s.doc.anchors[j]?).map linkOfAnchor) ∧
      snap.images = (s.doc.images.take maxImages).map imageOfImg ∧
      (maxImages < s.doc.images.length → snap.images.length = maxImages) := by
  refine ⟨structuredEvaluate s.doc maxLinks maxImages url, ?_, rfl, ?_, ?_, rfl,
    ?_⟩
  · simp [getPageData, hg]
  · intro h
    simp [structuredEvaluate, List.length_take]
    omega
  · intro j hj
    simp [structuredEvaluate, List.getElem?_map, List.getElem?_take, hj]
  · intro h
    simp [structuredEvaluate, List.length_take]
    omega

/-- Document with three anchors and two images, for the C6 witness. -/
def wDoc : PageDocument :=
  { title := "T"
    bodyInnerText := " body "
    anchors := [⟨"https://e.example/1", some "a"⟩, ⟨"https://e.example/2", none⟩,
      ⟨"https://e.example/3", some " b "⟩]
    images := [⟨"https://e.example/i1", ""⟩, ⟨"https://e.example/i2", "alt"⟩]
    lang := "en" }

/-- Scenario with a successful navigation to `wDoc`. -/
def wStructScenario : StructuredScenario := { gotoError := none, doc := wDoc }

/-- Witness for C6: caps 2 and 1 against three anchors and two images. -/
theorem structured_read_caps_witness :
    ∃ snap, (getPageData "https://e.example/" wStructScenario 2 1).1 =
        .ok snap ∧
      snap.links = (wStructScenario.doc.anchors.take 2).map linkOfAnchor ∧
      (2 < wStructScenario.doc.anchors.length → snap.links.length = 2) ∧
      (∀ j, j < 2 →
        snap.links[j]? = (wStructScenario.doc.anchors[j]?).map linkOfAnchor) ∧
      snap.images = (wStructScenario.doc.images.take 1).map imageOfImg ∧
      (1 < wStructScenario.doc.images.length → snap.images.length = 1) :=
  structured_read_caps "https://e.example/" wStructScenario 2 1 rfl

/-- C7: the duckduckgo_search tool declares maxResults as an integer bounded
to 1..50 with default 10 in its input schema, and the returned list is never
longer than the effective maximum the handler computes; in particular, with
maxResults 5 against a page offering 20 results, exactly 5 items come
back. -/
theorem search_maxResults_bound :
    duckduckgoSearchMaxResultsSchema.minimum = 1 ∧
    duckduckgoSearchMaxResultsSchema.maximum = 50 ∧
    duckduckgoSearchMaxResultsSchema.defaultValue = 10 ∧
    (∀ (q : String) (m : JsNum) (ddgMax : Nat) (s : SearchScenario)
        (results : List SearchResultItem),
      (handleDuckduckgoSearch (some q) m ddgMax s).1 = .success results →
      results.length ≤ m.orDefault ddgMax) ∧
    (∀ (q : String) (ddgMax : Nat) (s : SearchScenario),
      q ≠ "" → s.gotoError = none → s.page.modernItems.length = 20 →
      (handleDuckduckgoSearch (some q) (.num 5) ddgMax s).1 =
        .success (searchEvaluate s.page 5) ∧
      (searchEvaluate s.page 5).length = 5) := by
  refine ⟨rfl, rfl, rfl, ?_, ?_⟩
  · intro q m ddgMax s results h
    by_cases hq : q = ""
    · simp [handleDuckduckgoSearch, hq] at h
    · simp only [handleDuckduckgoSearch, if_neg hq] at h
      cases hg : s.gotoError with
      | some e => simp [searchToolDispatch, searchRun, hg] at h
      | none =>
        simp [searchToolDispatch, searchRun, hg] at h
        rw [← h]
        unfold searchEvaluate
        simp only [List.length_map]
        exact List.length_take_le ..
  · intro q ddgMax s hq hg h20
    constructor
    · simp [handleDuckduckgoSearch, hq, JsNum.orDefault, searchToolDispatch,
        searchRun, hg]
    · unfold searchEvaluate
      simp [h20, List.length_take]

/-- Search page with 20 modern result containers. -/
def wSearchPage20 : SearchPage :=
  { modernItems := List.replicate 20 wModernEl, legacyItems := [] }

/-- Scenario with a successful navigation to `wSearchPage20`. -/
def wSearchScenario20 : SearchScenario :=
  { gotoError := none, page := wSearchPage20 }

/-- Witness for C7: maxResults 5 against 20 available results. -/
theorem search_maxResults_bound_witness :
    (handleDuckduckgoSearch (some "lean") (.num 5) 10 wSearchScenario20).1 =
      .success (searchEvaluate wSearchScenario20.page 5) ∧
    (searchEvaluate wSearchScenario20.page 5).length = 5 :=
  search_maxResults_bound.2.2.2.2 "lean" 10 wSearchScenario20 (by decide) rfl
    (by decide)

/-- C9: a search request whose query is absent or empty fails with the input
error before any browser work: the handler result is the error text and the
session trace is empty, so no browser is launched. -/
theorem search_empty_query_no_session
    (query : Option String) (maxResults : JsNum) (ddgMax : Nat)
    (s : SearchScenario) (hq : query = none ∨ query = some "") :
    handleDuckduckgoSearch query maxResults ddgMax s =
      (.failure "Error: \x27query\x27 parameter is required", []) ∧
    (handleDuckduckgoSearch query maxResults ddgMax s).2.count Ev.launch
      = 0 := by
  rcases hq with rfl | rfl
  · exact ⟨rfl, rfl⟩
  · exact ⟨rfl, rfl⟩

/-- Witness for C9 at an empty query. -/
theorem search_empty_query_no_session_witness :
    handleDuckduckgoSearch (some "") JsNum.undefined 10
        ⟨none, wSearchPage⟩ =
      (.failure "Error: \x27query\x27 parameter is required", []) ∧
    (handleDuckduckgoSearch (some "") JsNum.undefined 10
        ⟨none, wSearchPage⟩).2.count Ev.launch = 0 :=
  search_empty_query_no_session (some "") JsNum.undefined 10
    ⟨none, wSearchPage⟩ (Or.inr rfl)

/-- C10: when the query is present and maxResults is falsy (absent, NaN or
0), the handler runs the search with the process-wide configured default
DDG_MAX_RESULTS, whose unconfigured value is 10; in particular a request for
zero results against a page offering 20 returns the default 10 items rather
than an empty list. -/
theorem search_falsy_maxResults_default :
    DDG_MAX_RESULTS_default = 10 ∧
    (∀ (q : String) (m : JsNum) (ddgMax : Nat) (s : SearchScenario),
      q ≠ "" → m.isFalsy = true →
      handleDuckduckgoSearch (some q) m ddgMax s =
        searchToolDispatch q ddgMax s) ∧
    (∀ (q : String) (s : SearchScenario),
      q ≠ "" → s.gotoError = none → s.page.modernItems.length = 20 →
      ∃ results,
        (handleDuckduckgoSearch (some q) (.num 0) DDG_MAX_RESULTS_default
          s).1 = .success results ∧ results.length = 10) := by
  refine ⟨rfl, ?_, ?_⟩
  · intro q m ddgMax s hq hf
    have hod : m.orDefault ddgMax = ddgMax := by
      cases m with
      | undefined => rfl
      | nan => rfl
      | num n =>
        simp [JsNum.isFalsy] at hf
        simp [JsNum.orDefault, hf]
    simp [handleDuckduckgoSearch, hq, hod]
  · intro q s hq hg h20
    refine ⟨searchEvaluate s.page 10, ?_, ?_⟩
    · simp [handleDuckduckgoSearch, hq, JsNum.orDefault,
        DDG_MAX_RESULTS_default, searchToolDispatch, searchRun, hg]
    · unfold searchEvaluate
      simp [h20, List.length_take]

/-- Witness for C10: maxResults 0 with the default configuration and 20
available results yields 10 items. -/
theorem search_falsy_maxResults_default_witness :
    ∃ results,
      (handleDuckduckgoSearch (some "lean") (.num 0) DDG_MAX_RESULTS_default
        wSearchScenario20).1 = .success results ∧ results.length = 10 :=
  search_falsy_maxResults_default.2.2 "lean" wSearchScenario20 (by decide) rfl
    (by decide)
